import Mathlib

/-!
Shallow embedding of the real-time control layer of the Voice-AI-Latency
repository: the ACS frame serializer (`app/transports/acs_serializer.py`),
the turn gate (`app/processors/turn_gate.py`), the latency injector
(`app/processors/latency_injector.py`), the STT mute coordinator
(`app/processors/stt_mute.py`) and the call-number provider
(`app/providers/call_number_provider.py`), together with theorems checking
the natural-language specification against this embedding.
-/

namespace VoiceAI

/-- JSON values, modelling the Python objects produced by `json.loads` and
consumed by `json.dumps`.  Numbers are modelled as integers (all numeric
fields of the wire protocol are integral). -/
inductive JVal where
  | null
  | jbool (b : Bool)
  | jnum (n : Int)
  | jstr (s : String)
  | jarr (xs : List JVal)
  | jobj (fields : List (String × JVal))

/-- Python exceptions that can escape the embedded code paths.
`valueError` stands for the `ValueError` (`UnicodeEncodeError`) raised by
`s.encode('ascii')` inside `base64.b64decode` on non-ASCII input. -/
inductive PyErr where
  | attributeError
  | typeError
  | binasciiError
  | audioopError
  | valueError
deriving DecidableEq

/-- Python truthiness of an optional JSON value (`None` and the falsy JSON
values are false). -/
def truthy : Option JVal → Bool
  | none => false
  | some .null => false
  | some (.jbool b) => b
  | some (.jnum n) => n != 0
  | some (.jstr s) => s != ""
  | some (.jarr xs) => !xs.isEmpty
  | some (.jobj fs) => !fs.isEmpty

/-- Python `a or b` on optional JSON values: returns `a` when truthy,
otherwise `b`. -/
def pyOr (a b : Option JVal) : Option JVal :=
  if truthy a then a else b

/-- Lookup of a key in a JSON object's field list, modelling Python
`dict.get` (the keys of a dict produced by `json.loads` are unique, so the
binding found is the only one). -/
def jGet : List (String × JVal) → String → Option JVal
  | [], _ => none
  | (k, v) :: rest, key => if k == key then some v else jGet rest key

/-- Python `msg.get(key)`: field lookup on a dict, `AttributeError` on any
other object. -/
def JVal.getF : JVal → String → Except PyErr (Option JVal)
  | .jobj fields, key => .ok (jGet fields key)
  | _, _ => .error .attributeError

/-- The standard base64 alphabet. -/
def b64Alphabet : List Char :=
  "ABCDEFGHIJKLMNOPQRSTUVWXYZabcdefghijklmnopqrstuvwxyz0123456789+/".toList

/-- Value of a base64 alphabet character, `none` for characters outside the
alphabet. -/
def b64CharVal (c : Char) : Option Nat :=
  b64Alphabet.findIdx? (fun x => x == c)

/-- Character encoding a 6-bit group. -/
def b64EncChar (n : Nat) : Char :=
  b64Alphabet.getD n 'A'

/-- Core of base64 encoding: bytes to characters, three bytes per quad. -/
def b64encodeCore : List Nat → List Char
  | [] => []
  | [a] =>
    let a := a % 256
    [b64EncChar (a / 4), b64EncChar (a % 4 * 16), '=', '=']
  | [a, b] =>
    let a := a % 256
    let b := b % 256
    [b64EncChar (a / 4), b64EncChar (a % 4 * 16 + b / 16), b64EncChar (b % 16 * 4), '=']
  | a :: b :: c :: rest =>
    let a := a % 256
    let b := b % 256
    let c := c % 256
    b64EncChar (a / 4) :: b64EncChar (a % 4 * 16 + b / 16) ::
      b64EncChar (b % 16 * 4 + c / 64) :: b64EncChar (c % 64) :: b64encodeCore rest

/-- Model of Python `base64.b64encode(...).decode()`. -/
def b64encode (bs : List Nat) : String :=
  String.mk (b64encodeCore bs)

/-- Core of base64 decoding over the already-filtered character stream:
decodes full quads, accepts one final padded quad, and raises
`binascii.Error` on any leftover, mirroring `base64.b64decode`. -/
def b64decodeCore : List Char → Except PyErr (List Nat)
  | [] => .ok []
  | [a, b, '=', '='] =>
    match b64CharVal a, b64CharVal b with
    | some va, some vb => .ok [va * 4 + vb / 16]
    | _, _ => .error .binasciiError
  | [a, b, c, '='] =>
    match b64CharVal a, b64CharVal b, b64CharVal c with
    | some va, some vb, some vc => .ok [va * 4 + vb / 16, vb % 16 * 16 + vc / 4]
    | _, _, _ => .error .binasciiError
  | a :: b :: c :: d :: rest =>
    match b64CharVal a, b64CharVal b, b64CharVal c, b64CharVal d with
    | some va, some vb, some vc, some vd =>
      (fun tail => (va * 4 + vb / 16) :: (vb % 16 * 16 + vc / 4) :: (vc % 4 * 64 + vd) :: tail)
        <$> b64decodeCore rest
    | _, _, _, _ => .error .binasciiError
  | _ => .error .binasciiError

/-- Model of Python `base64.b64decode` on a `str` (default
`validate=False`): the string is first encoded as ASCII — any non-ASCII
character raises `ValueError` — then ASCII characters outside the alphabet
and `=` are discarded, and the stream is decoded; an incomplete trailing
group raises `binascii.Error`. -/
def b64decode (s : String) : Except PyErr (List Nat) :=
  if s.toList.any (fun c => 128 ≤ c.toNat) then .error .valueError
  else b64decodeCore (s.toList.filter (fun c => (b64CharVal c).isSome || c == '='))

/-- Which concrete pipecat audio-frame class an audio frame belongs to
(`InputAudioRawFrame`, `UserAudioRawFrame`, `OutputAudioRawFrame`); all of
them are instances of the base class `AudioRawFrame`. -/
inductive AudioClass where
  | inputAudio
  | userAudio
  | outputAudio
deriving DecidableEq

/-- Pipecat frame directions. -/
inductive Direction where
  | downstream
  | upstream
deriving DecidableEq

/-- The pipecat frame kinds the embedded components inspect.  `audioRaw`
carries the PCM buffer as a byte list together with the declared sample
rate and channel count; `transportMessage` models both
`TransportMessageFrame` and `TransportMessageUrgentFrame` (flag `urgent`);
`otherFrame` stands for every remaining pipecat frame kind, none of which
any embedded component distinguishes. -/
inductive Frame where
  | endFrame
  | cancelFrame
  | startInterruption
  | audioRaw (cls : AudioClass) (audio : List Nat) (sampleRate : Nat) (numChannels : Nat)
  | transportMessage (urgent : Bool) (message : JVal)
  | userStartedSpeaking
  | userStoppedSpeaking
  | botStoppedSpeaking
  | llmContext
  | llmMessages
  | ttsSpeak (text : String)
  | sttMute (mute : Bool)
  | otherFrame (tag : String)

namespace Serializer

/-- `ACSFrameSerializer.InputParams` (defaults `sample_rate = 16000`,
`auto_stop_audio = True`). -/
structure InputParams where
  sample_rate : Nat := 16000
  auto_stop_audio : Bool := true
deriving DecidableEq

/-- State of an `ACSFrameSerializer` instance: its params and its current
pipeline sample rate `_sample_rate`. -/
structure ACSFrameSerializer where
  params : InputParams
  sample_rate : Nat
deriving DecidableEq

/-- `ACSFrameSerializer.__init__`. -/
def init (params : InputParams) : ACSFrameSerializer :=
  { params := params, sample_rate := params.sample_rate }

/-- `ACSFrameSerializer.setup`: adopt the pipeline's input sample rate when
it is set (Python `frame.audio_in_sample_rate or self._sample_rate`). -/
def setup (s : ACSFrameSerializer) (audioInSampleRate : Nat) : ACSFrameSerializer :=
  { s with sample_rate := if audioInSampleRate ≠ 0 then audioInSampleRate else s.sample_rate }

/-- Model of `audioop.ratecv(pcm, 2, 1, inrate, outrate, None)` restricted
to what the serializer relies on: it raises `audioop.error` when the buffer
is not a whole number of 2-byte frames or a rate is not positive, and
otherwise applies the (externally supplied) resampling function.  The DSP
internals of the C library `audioop` are outside this repository, so the
resampler itself is a parameter. -/
def ratecv (resample : List Nat → Nat → Nat → List Nat)
    (pcm : List Nat) (inrate outrate : Nat) : Except PyErr (List Nat) :=
  if pcm.length % 2 ≠ 0 then .error .audioopError
  else if inrate = 0 ∨ outrate = 0 then .error .audioopError
  else .ok (resample pcm inrate outrate)

/-- The outbound stop-audio wire message. -/
def stopAudioMsg : JVal :=
  .jobj [("kind", .jstr "stopAudio"), ("stopAudio", .jobj [])]

/-- The outbound audio wire envelope built by `serialize`. -/
def audioDataEnvelope (pcm : List Nat) (sr : Nat) : JVal :=
  .jobj [("kind", .jstr "audioData"),
         ("audioData", .jobj
           [("timestamp", .null),
            ("participantRawID", .jstr ""),
            ("data", .jstr (b64encode pcm)),
            ("silent", .jbool false),
            ("sampleRate", .jnum sr)])]

/-- `ACSFrameSerializer.serialize`.  The returned JSON value models the
string produced by `json.dumps`; `.ok none` models returning `None`, and
`.error` models an escaping Python exception. -/
def serialize (resample : List Nat → Nat → Nat → List Nat)
    (s : ACSFrameSerializer) (f : Frame) : Except PyErr (Option JVal) :=
  match f with
  | .endFrame | .cancelFrame | .startInterruption =>
    if s.params.auto_stop_audio then .ok (some stopAudioMsg) else .ok none
  | .audioRaw _ pcm sr _ =>
    let sr := if sr ≠ 0 then sr else s.sample_rate
    if sr ≠ 16000 then
      match ratecv resample pcm sr 16000 with
      | .error e => .error e
      | .ok pcm' => .ok (some (audioDataEnvelope pcm' 16000))
    else
      .ok (some (audioDataEnvelope pcm sr))
  | .transportMessage _ m => .ok (some m)
  | _ => .ok none

/-- Python `kind != "AudioData"` negated: the retrieved kind value equals
the string literal `AudioData`. -/
def isAudioDataKind : Option JVal → Bool
  | some (.jstr s) => s == "AudioData"
  | _ => false

/-- Tail of `deserialize` from the line `if sr != self._sample_rate:`
onward: resample when the advertised rate differs from the pipeline rate,
then wrap the PCM as an `InputAudioRawFrame` with one channel. -/
def resampleInbound (resample : List Nat → Nat → Nat → List Nat)
    (s : ACSFrameSerializer) (pcm : List Nat) (sr : Int) : Except PyErr (Option Frame) :=
  if sr ≠ (s.sample_rate : Int) then
    match ratecv resample pcm sr.toNat s.sample_rate with
    | .error e => .error e
    | .ok pcm' => .ok (some (.audioRaw .inputAudio pcm' s.sample_rate 1))
  else .ok (some (.audioRaw .inputAudio pcm s.sample_rate 1))

/-- `ACSFrameSerializer.deserialize`.  The input `none` models a wire
payload on which `json.loads` raises `ValueError` (caught, yielding
`None`); `some msg` models a successfully parsed JSON value.  `.ok none`
models returning `None`; `.error` models a Python exception escaping the
method (only `json.loads` sits inside the `try`): `AttributeError` when
`.get` is used on a non-dict, `binascii.Error` from `base64.b64decode`,
`TypeError` when a payload field has an impossible type, `audioop.error`
from `audioop.ratecv`.  A `sampleRate` of JSON `true` behaves as the
Python int `1`. -/
def deserialize (resample : List Nat → Nat → Nat → List Nat)
    (s : ACSFrameSerializer) (msg? : Option JVal) : Except PyErr (Option Frame) :=
  match msg? with
  | none => .ok none
  | some (.jobj fields) =>
    let kind := pyOr (jGet fields "kind") (jGet fields "Kind")
    if !isAudioDataKind kind then .ok none
    else
      match (pyOr (pyOr (jGet fields "audioData") (jGet fields "AudioData"))
          (some (.jobj []))).getD (.jobj []) with
      | .jobj af =>
        let b64 := pyOr (jGet af "data") (jGet af "Data")
        if !truthy b64 then .ok none
        else
          match b64 with
          | some (.jstr str) =>
            match b64decode str with
            | .error e => .error e
            | .ok pcm =>
              match pyOr (pyOr (jGet af "sampleRate") (jGet af "SampleRate"))
                  (some (.jnum 16000)) with
              | some (.jnum n) => resampleInbound resample s pcm n
              | some (.jbool true) => resampleInbound resample s pcm 1
              | _ => .error .typeError
          | _ => .error .typeError
      | _ => .error .attributeError
  | some _ => .error .attributeError

end Serializer

/-- A frame the turn gate may drop: Python
`isinstance(frame, (InputAudioRawFrame, UserAudioRawFrame))`. -/
def Frame.isCallerAudio : Frame → Bool
  | .audioRaw .inputAudio _ _ _ => true
  | .audioRaw .userAudio _ _ _ => true
  | _ => false

namespace TurnGate

/-- Mutable state of a `TurnGateProcessor`: `_enabled`, `_mute`, `_dropped`
and `_saw_user_since_enable`. -/
structure State where
  enabled : Bool
  mute : Bool
  dropped : Nat
  sawUser : Bool
deriving DecidableEq

/-- `TurnGateProcessor.__init__`. -/
def initState : State :=
  { enabled := true, mute := false, dropped := 0, sawUser := false }

/-- `TurnGateProcessor.enable`. -/
def enable (_ : State) : State :=
  { enabled := true, mute := false, dropped := 0, sawUser := false }

/-- `TurnGateProcessor.disable`. -/
def disable (_ : State) : State :=
  { enabled := false, mute := false, dropped := 0, sawUser := false }

/-- `TurnGateProcessor.process_frame`: returns the next state and the list
of frames pushed onward (either the incoming frame or nothing).  The
frame's direction plays no role in the Python code. -/
def processFrame (s : State) (f : Frame) : State × List Frame :=
  if !s.enabled then (s, [f])
  else
    let s1 : State :=
      match f with
      | .userStartedSpeaking => { s with sawUser := true }
      | .userStoppedSpeaking =>
        if s.sawUser then { s with mute := true, dropped := 0 } else s
      | .botStoppedSpeaking => { s with mute := false, sawUser := false }
      | _ => s
    if s1.mute && f.isCallerAudio then
      ({ s1 with dropped := s1.dropped + 1 }, [])
    else
      (s1, [f])

/-- Feeding a sequence of frames through the gate, collecting the forwarded
frames in order. -/
def run (s : State) : List Frame → State × List Frame
  | [] => (s, [])
  | f :: rest =>
    let r := processFrame s f
    let r' := run r.1 rest
    (r'.1, r.2 ++ r'.2)

end TurnGate

namespace Latency

/-- Frames that trigger the latency injection: Python
`isinstance(frame, (OpenAILLMContextFrame, LLMMessagesFrame))`. -/
def isTurnStartFrame : Frame → Bool
  | .llmContext => true
  | .llmMessages => true
  | _ => false

/-- Frames that end the injector's busy period: Python
`isinstance(frame, TTSSpeakFrame)`. -/
def isTTSSpeakFrame : Frame → Bool
  | .ttsSpeak _ => true
  | _ => false

/-- Latency selection strategies. -/
inductive Strategy where
  | random
  | roundRobin
deriving DecidableEq

/-- Module-level state shared by all injector instances of one process:
`LATENCY_CHOICES` and the position of the `itertools.cycle` iterator
`_latency_cycle`. -/
structure GlobalState where
  choices : List ℚ
  cursor : Nat
deriving DecidableEq

/-- `_next_latency_round_robin`: `next(_latency_cycle)`, which yields
element `cursor % len(choices)` of the cached sequence and advances the
cursor. -/
def nextLatencyRoundRobin (g : GlobalState) : ℚ × GlobalState :=
  (g.choices.getD (g.cursor % g.choices.length) 0, { g with cursor := g.cursor + 1 })

/-- Per-instance state of a `LatencyInjector`: its candidate delays, its
strategy, the cached `_latency_seconds` and the `_busy` flag. -/
structure Injector where
  choices : List ℚ
  strategy : Strategy
  latency_seconds : Option ℚ
  busy : Bool
deriving DecidableEq

/-- `LatencyInjector.__init__` (with a valid strategy): the instance
candidates default to `LATENCY_CHOICES` when the argument is `None` or
empty (Python `tuple(choices) if choices else LATENCY_CHOICES`). -/
def initInjector (choices? : Option (List ℚ)) (strategy : Strategy) (g : GlobalState) : Injector :=
  { choices :=
      match choices? with
      | some cs => if cs.isEmpty then g.choices else cs
      | none => g.choices,
    strategy := strategy, latency_seconds := none, busy := false }

/-- `LatencyInjector._pick_latency`.  `rand` models the draw of Python's
global RNG used by `random.choice` for this call (reduced modulo the number
of candidates, as `random.choice` always returns an element of its
argument). -/
def pickLatency (rand : Nat) (g : GlobalState) (s : Injector) : ℚ × GlobalState × Injector :=
  match s.latency_seconds with
  | some v => (v, g, s)
  | none =>
    match s.strategy with
    | .random =>
      let v := s.choices.getD (rand % s.choices.length) 0
      (v, g, { s with latency_seconds := some v })
    | .roundRobin =>
      let p := nextLatencyRoundRobin g
      (p.1, p.2, { s with latency_seconds := some p.1 })

/-- Observable actions of `LatencyInjector.process_frame`, in program
order: pushing a frame in a direction, or sleeping for a number of
seconds. -/
inductive Event where
  | push (f : Frame) (d : Direction)
  | sleep (seconds : ℚ)

/-- `LatencyInjector.process_frame`: returns the updated global state, the
updated injector, and the ordered list of observable actions. -/
def processFrame (rand : Nat) (g : GlobalState) (s : Injector) (f : Frame) (d : Direction) :
    GlobalState × Injector × List Event :=
  let step1 : GlobalState × Injector × List Event :=
    if d = .downstream ∧ isTurnStartFrame f then
      let s' := { s with busy := true }
      let p := pickLatency rand g s'
      (p.2.1, p.2.2, [.push (.sttMute true) .upstream, .sleep p.1])
    else (g, s, [])
  let g1 := step1.1
  let s1 := step1.2.1
  let ev1 := step1.2.2
  let step2 : Injector × List Event :=
    if s1.busy ∧ d = .downstream ∧ isTTSSpeakFrame f then
      ({ s1 with busy := false }, [.push (.sttMute false) .upstream])
    else (s1, [])
  (g1, step2.1, ev1 ++ step2.2 ++ [.push f d])

/-- Delays picked across successive sessions of one process: each session
constructs a fresh round-robin injector against the current module state
and picks once (`call_pipeline` builds one `LatencyInjector` per call).
The `rand` argument is irrelevant under the round-robin strategy. -/
def sessionDelays (g : GlobalState) : Nat → List ℚ
  | 0 => []
  | n + 1 =>
    let p := pickLatency 0 g (initInjector none .roundRobin g)
    p.1 :: sessionDelays p.2.1 n

end Latency

/-- The `should_mute_callback` closure built by `build_stt_mute`:
`flt._bot_is_speaking or latency_injector.busy`. -/
def should_mute_callback (botIsSpeaking : Bool) (injector : Latency.Injector) : Bool :=
  botIsSpeaking || injector.busy

namespace CallNumbers

/-- The message of the `RuntimeError` raised on pool exhaustion. -/
def poolExhaustedMsg : String :=
  "No call numbers left in the pool (201-500)"

/-- Python `f"{i:03d}"`: decimal digits of `i`, zero-padded on the left to
width 3. -/
def fmt03 (i : Nat) : String :=
  let s := toString i
  if s.length < 3 then String.mk (List.replicate (3 - s.length) '0') ++ s else s

/-- `CallNumberProvider._ensure_pool` on a missing pool file: the pool is
materialized as `[f"{i:03d}" for i in range(start, stop + 1)]`. -/
def initialPool (start stop : Nat) : List String :=
  (List.range' start (stop + 1 - start)).map fmt03

/-- `CallNumberProvider.get_number` acting on the persisted pool contents.
`rand` models the draw of `random.choice` (reduced modulo the pool size);
the lock makes the load-modify-save cycle atomic, so the operation is a
function from pool to pool.  Python `pool.remove(number)` removes the first
occurrence, i.e. `List.erase`. -/
def get_number (rand : Nat) (pool : List String) : Except String (String × List String) :=
  if pool.isEmpty then .error poolExhaustedMsg
  else
    let number := pool.getD (rand % pool.length) ""
    .ok (number, pool.erase number)

/-- A sequence of `get_number` calls, one per entry of `rands`, returning
the issued ids in order together with the final pool; the lock serializes
concurrent callers into such a sequence. -/
def issueAll (rands : List Nat) (pool : List String) :
    Except String (List String × List String) :=
  match rands with
  | [] => .ok ([], pool)
  | r :: rs =>
    match get_number r pool with
    | .error e => .error e
    | .ok (n, pool') =>
      match issueAll rs pool' with
      | .error e => .error e
      | .ok (ns, pool'') => .ok (n :: ns, pool'')

end CallNumbers

/-! ## Helper lemmas -/

theorem pyOr_of_truthy {a : Option JVal} (b : Option JVal) (h : truthy a = true) :
    pyOr a b = a := by simp [pyOr, h]

theorem pyOr_of_not_truthy {a : Option JVal} (b : Option JVal) (h : truthy a = false) :
    pyOr a b = b := by simp [pyOr, h]

theorem pyOr_none_left (b : Option JVal) : pyOr none b = b := rfl

theorem pyOr_none_right (a : Option JVal) : pyOr a none = if truthy a then a else none := rfl

section SerializerClaims

open Serializer

/-- Claim C1 counterexample: the wire message
`{"kind":"AudioData","audioData":{"data":"a"}}` is well-formed JSON whose
base64 payload is undecodable (one data character); `deserialize` raises
`binascii.Error` (the `try` only guards `json.loads`), so an exception
escapes the serializer, contradicting the claim that deserialize returns
none and raises nothing on every malformed wire message. -/
theorem claim_C1_counterexample :
    deserialize (fun p _ _ => p) (init {})
      (some (.jobj [("kind", .jstr "AudioData"), ("audioData", .jobj [("data", .jstr "a")])]))
      = .error .binasciiError := rfl

/-- Claim C1 (amended): for malformed JSON, for any parsed object whose
kind is not the audio kind, and for any audio-kind object whose data field
is missing or falsy, `deserialize` returns none and raises nothing.
(Undecodable base64 data, by contrast, raises — see the counterexample.) -/
theorem claim_C1 (resample : List Nat → Nat → Nat → List Nat) (s : ACSFrameSerializer) :
    deserialize resample s none = .ok none ∧
    (∀ fields, isAudioDataKind (pyOr (jGet fields "kind") (jGet fields "Kind")) = false →
      deserialize resample s (some (.jobj fields)) = .ok none) ∧
    (∀ fields af,
      (pyOr (pyOr (jGet fields "audioData") (jGet fields "AudioData")) (some (.jobj []))).getD (.jobj [])
        = .jobj af →
      truthy (pyOr (jGet af "data") (jGet af "Data")) = false →
      deserialize resample s (some (.jobj fields)) = .ok none) := by
  refine ⟨rfl, ?_, ?_⟩
  · intro fields h
    simp [deserialize, h]
  · intro fields af haud hdata
    by_cases hk : isAudioDataKind (pyOr (jGet fields "kind") (jGet fields "Kind")) = true
    · simp [deserialize, hk, haud, hdata]
    · simp at hk
      simp [deserialize, hk]

/-- Witness for claim C1: concrete malformed messages — unparseable JSON,
an unsupported kind, and a missing data payload — all deserialize to none
without an exception. -/
theorem claim_C1_witness :
    deserialize (fun p _ _ => p) (init {}) none = .ok none ∧
    deserialize (fun p _ _ => p) (init {})
      (some (.jobj [("kind", .jstr "stopAudio")])) = .ok none ∧
    deserialize (fun p _ _ => p) (init {})
      (some (.jobj [("kind", .jstr "AudioData"), ("audioData", .jobj [])])) = .ok none :=
  ⟨(claim_C1 _ _).1,
   (claim_C1 _ _).2.1 _ rfl,
   (claim_C1 _ _).2.2 _ [] rfl rfl⟩

/-- Claim C2 counterexample: a well-formed message whose kind field is the
lower-camel-case `audioData` with a non-empty base64 payload deserializes
to none, not to an audio frame — the code compares the kind value against
the capitalized literal `AudioData`. -/
theorem claim_C2_counterexample :
    deserialize (fun p _ _ => p) (init {})
      (some (.jobj [("kind", .jstr "audioData"),
        ("audioData", .jobj [("data", .jstr "AAAA"), ("sampleRate", .jnum 16000)])]))
      = .ok none := rfl

/-- Claim C2 (amended): for every well-formed inbound message whose kind
value is `AudioData` (capitalized) carrying a non-empty decodable base64
payload of whole 16-bit samples and a positive advertised rate,
`deserialize` returns an inbound mono audio frame whose PCM is the decoded
payload, resampled from the advertised rate to the pipeline rate when they
differ; a non-ASCII data payload raises an escaping `ValueError`; and
every message with any other kind value yields none. -/
theorem claim_C2 (resample : List Nat → Nat → Nat → List Nat) (s : ACSFrameSerializer) :
    (∀ fields af str pcm sr,
      pyOr (jGet fields "kind") (jGet fields "Kind") = some (.jstr "AudioData") →
      (pyOr (pyOr (jGet fields "audioData") (jGet fields "AudioData")) (some (.jobj []))).getD (.jobj [])
        = .jobj af →
      pyOr (jGet af "data") (jGet af "Data") = some (.jstr str) →
      str ≠ "" →
      b64decode str = .ok pcm →
      pyOr (pyOr (jGet af "sampleRate") (jGet af "SampleRate")) (some (.jnum 16000))
        = some (.jnum sr) →
      0 < sr →
      pcm.length % 2 = 0 →
      s.sample_rate ≠ 0 →
      deserialize resample s (some (.jobj fields)) =
        .ok (some (.audioRaw .inputAudio
          (if sr ≠ (s.sample_rate : Int) then resample pcm sr.toNat s.sample_rate else pcm)
          s.sample_rate 1))) ∧
    (∀ fields af str,
      pyOr (jGet fields "kind") (jGet fields "Kind") = some (.jstr "AudioData") →
      (pyOr (pyOr (jGet fields "audioData") (jGet fields "AudioData")) (some (.jobj []))).getD (.jobj [])
        = .jobj af →
      pyOr (jGet af "data") (jGet af "Data") = some (.jstr str) →
      str ≠ "" →
      str.toList.any (fun c => 128 ≤ c.toNat) = true →
      deserialize resample s (some (.jobj fields)) = .error .valueError) ∧
    (∀ fields, isAudioDataKind (pyOr (jGet fields "kind") (jGet fields "Kind")) = false →
      deserialize resample s (some (.jobj fields)) = .ok none) := by
  refine ⟨?_, ?_, ?_⟩
  · intro fields af str pcm sr hkind haud hdata hne hdec hsr hpos heven hsrr
    simp [deserialize, hkind, haud, hdata, hne, hdec, hsr, isAudioDataKind, truthy,
      resampleInbound, ratecv, heven]
    rcases eq_or_ne sr (s.sample_rate : Int) with h | h
    · simp [h]
    · have hno : ¬(sr ≤ 0 ∨ s.sample_rate = 0) := by omega
      simp [h, hno]
  · intro fields af str hkind haud hdata hne hasc
    have hdec : b64decode str = .error .valueError := by
      rw [b64decode, if_pos hasc]
    simp [deserialize, hkind, haud, hdata, hne, hdec, isAudioDataKind, truthy]
  · intro fields h
    simp [deserialize, h]

/-- Witness for claim C2: a concrete `AudioData` message advertising
8 kHz is decoded and resampled to the 16 kHz pipeline rate. -/
theorem claim_C2_witness :
    deserialize (fun p _ _ => p ++ p) (init {})
      (some (.jobj [("kind", .jstr "AudioData"),
        ("audioData", .jobj [("data", .jstr "AAAAAAAA"), ("sampleRate", .jnum 8000)])]))
      = .ok (some (.audioRaw .inputAudio [0, 0, 0, 0, 0, 0, 0, 0, 0, 0, 0, 0] 16000 1)) := by
  have h := (claim_C2 (fun p _ _ => p ++ p) (init {})).1
    [("kind", .jstr "AudioData"),
     ("audioData", .jobj [("data", .jstr "AAAAAAAA"), ("sampleRate", .jnum 8000)])]
    [("data", .jstr "AAAAAAAA"), ("sampleRate", .jnum 8000)]
    "AAAAAAAA" [0, 0, 0, 0, 0, 0] 8000 rfl rfl rfl (by decide) rfl rfl (by decide) rfl
    (by decide)
  simpa [init] using h

/-- Claim C3 counterexample: a `TransportMessageFrame` does not serialize
to none — its carried message is returned — contradicting the claim that
every frame other than audio and end/cancel/interruption returns none. -/
theorem claim_C3_counterexample :
    serialize (fun p _ _ => p) (init {}) (.transportMessage false (.jstr "hello"))
      = .ok (some (.jstr "hello")) := rfl

/-- Claim C3 (amended): serialize maps end/cancel/interruption control
frames to the stop-audio message exactly when auto-stop is enabled; audio
frames (of whole 16-bit samples with a meaningful declared rate) to the
fixed audioData envelope with sampleRate 16000, silent false and data the
base64 of the PCM, resampled to 16 kHz when the declared rate differs;
transport-message frames to their carried message; and every other frame
kind to none. -/
theorem claim_C3 (resample : List Nat → Nat → Nat → List Nat) (s : ACSFrameSerializer) :
    (∀ f, (f = .endFrame ∨ f = .cancelFrame ∨ f = .startInterruption) →
      serialize resample s f =
        .ok (if s.params.auto_stop_audio then
          some (.jobj [("kind", .jstr "stopAudio"), ("stopAudio", .jobj [])]) else none)) ∧
    (∀ cls pcm sr nch, sr ≠ 0 → pcm.length % 2 = 0 →
      serialize resample s (.audioRaw cls pcm sr nch) =
        .ok (some (.jobj [("kind", .jstr "audioData"),
          ("audioData", .jobj
            [("timestamp", .null),
             ("participantRawID", .jstr ""),
             ("data", .jstr (b64encode (if sr ≠ 16000 then resample pcm sr 16000 else pcm))),
             ("silent", .jbool false),
             ("sampleRate", .jnum 16000)])]))) ∧
    (∀ urgent m, serialize resample s (.transportMessage urgent m) = .ok (some m)) ∧
    serialize resample s .userStartedSpeaking = .ok none ∧
    serialize resample s .userStoppedSpeaking = .ok none ∧
    serialize resample s .botStoppedSpeaking = .ok none ∧
    serialize resample s .llmContext = .ok none ∧
    serialize resample s .llmMessages = .ok none ∧
    (∀ t, serialize resample s (.ttsSpeak t) = .ok none) ∧
    (∀ b, serialize resample s (.sttMute b) = .ok none) ∧
    (∀ tag, serialize resample s (.otherFrame tag) = .ok none) := by
  refine ⟨?_, ?_, fun _ _ => rfl, rfl, rfl, rfl, rfl, rfl, fun _ => rfl, fun _ => rfl,
    fun _ => rfl⟩
  · rintro f (rfl | rfl | rfl) <;> simp [serialize, stopAudioMsg] <;> split <;> rfl
  · intro cls pcm sr nch h0 heven
    rcases eq_or_ne sr 16000 with h | h
    · simp [serialize, h, audioDataEnvelope]
    · simp [serialize, h0, h, ratecv, heven, audioDataEnvelope]

/-- Witness for claim C3: an end frame with auto-stop on yields the
stop-audio message, and a concrete 8 kHz audio frame yields the audioData
envelope with the resampled payload. -/
theorem claim_C3_witness :
    serialize (fun p _ _ => p ++ p) (init {}) .endFrame
      = .ok (some (.jobj [("kind", .jstr "stopAudio"), ("stopAudio", .jobj [])])) ∧
    serialize (fun p _ _ => p ++ p) (init {}) (.audioRaw .outputAudio [1, 2] 8000 1)
      = .ok (some (.jobj [("kind", .jstr "audioData"),
          ("audioData", .jobj
            [("timestamp", .null),
             ("participantRawID", .jstr ""),
             ("data", .jstr "AQIBAg=="),
             ("silent", .jbool false),
             ("sampleRate", .jnum 16000)])])) := by
  constructor
  · have h := (claim_C3 (fun p _ _ => p ++ p) (init {})).1 .endFrame (Or.inl rfl)
    simpa [init] using h
  · have h := (claim_C3 (fun p _ _ => p ++ p) (init {})).2.1 .outputAudio [1, 2] 8000 1
      (by decide) (by decide)
    simpa [init] using h

/-- Claim C10: deserialize accepts the capitalized field names `Kind`,
`AudioData`, `Data` and `SampleRate` interchangeably with the
lower-camel-case names; defaults the sampleRate field to 16000 both when
the field is missing and when it is present but falsy (0, null, false,
empty string, empty array, empty object); and returns none — not an empty
audio frame — when the data field is missing or the empty string. -/
theorem claim_C10 (resample : List Nat → Nat → Nat → List Nat) (s : ACSFrameSerializer) :
    (∀ kv av : JVal,
      deserialize resample s (some (.jobj [("Kind", kv), ("AudioData", av)]))
        = deserialize resample s (some (.jobj [("kind", kv), ("audioData", av)]))) ∧
    (∀ dv srv : JVal,
      deserialize resample s (some (.jobj [("kind", .jstr "AudioData"),
          ("audioData", .jobj [("Data", dv), ("SampleRate", srv)])]))
        = deserialize resample s (some (.jobj [("kind", .jstr "AudioData"),
          ("audioData", .jobj [("data", dv), ("sampleRate", srv)])]))) ∧
    (∀ dv : JVal,
      deserialize resample s (some (.jobj [("kind", .jstr "AudioData"),
          ("audioData", .jobj [("data", dv)])]))
        = deserialize resample s (some (.jobj [("kind", .jstr "AudioData"),
          ("audioData", .jobj [("data", dv), ("sampleRate", .jnum 16000)])]))) ∧
    (∀ dv srv : JVal, truthy (some srv) = false →
      deserialize resample s (some (.jobj [("kind", .jstr "AudioData"),
          ("audioData", .jobj [("data", dv), ("sampleRate", srv)])]))
        = deserialize resample s (some (.jobj [("kind", .jstr "AudioData"),
          ("audioData", .jobj [("data", dv), ("sampleRate", .jnum 16000)])]))) ∧
    deserialize resample s (some (.jobj [("kind", .jstr "AudioData"), ("audioData", .jobj [])]))
      = .ok none ∧
    deserialize resample s (some (.jobj [("kind", .jstr "AudioData"),
      ("audioData", .jobj [("data", .jstr "")])])) = .ok none := by
  refine ⟨?_, ?_, ?_, ?_, rfl, rfl⟩
  · intro kv av
    by_cases hkv : isAudioDataKind (some kv) = true
    · have htv : truthy (some kv) = true := by
        cases kv <;> simp_all [isAudioDataKind, truthy]
      by_cases hav : truthy (some av) = true
      · simp [deserialize, jGet, pyOr_none_left, pyOr_of_truthy _ htv, pyOr_of_truthy _ hav,
          pyOr_none_right, htv, hav]
      · simp at hav
        simp [deserialize, jGet, pyOr_none_left, pyOr_of_truthy _ htv, pyOr_of_not_truthy _ hav,
          pyOr_none_right, htv, hav]
    · simp at hkv
      have hkv' : isAudioDataKind (if truthy (some kv) then some kv else none) = false := by
        split
        · exact hkv
        · rfl
      simp [deserialize, jGet, pyOr_none_left, pyOr_none_right, hkv, hkv']
  · intro dv srv
    have hk : truthy (some (JVal.jstr "AudioData")) = true := rfl
    have hks : isAudioDataKind (some (JVal.jstr "AudioData")) = true := rfl
    have hn0 : truthy (none : Option JVal) = false := rfl
    have ho1 : truthy (some (JVal.jobj [("Data", dv), ("SampleRate", srv)])) = true := rfl
    have ho2 : truthy (some (JVal.jobj [("data", dv), ("sampleRate", srv)])) = true := rfl
    by_cases hdv : truthy (some dv) = true
    · by_cases hsrv : truthy (some srv) = true
      · simp [deserialize, jGet, pyOr_none_left, pyOr_of_truthy _ hdv, pyOr_of_truthy _ hsrv,
          pyOr_none_right, hdv, hsrv, hk, hks, hn0, ho1, ho2, pyOr_of_truthy _ hk,
          pyOr_of_truthy _ ho1, pyOr_of_truthy _ ho2]
      · simp at hsrv
        simp [deserialize, jGet, pyOr_none_left, pyOr_of_truthy _ hdv,
          pyOr_of_not_truthy _ hsrv, pyOr_none_right, hdv, hsrv, hk, hks, hn0, ho1, ho2,
          pyOr_of_truthy _ hk, pyOr_of_truthy _ ho1, pyOr_of_truthy _ ho2]
    · simp at hdv
      simp [deserialize, jGet, pyOr_none_left, pyOr_of_not_truthy _ hdv, pyOr_none_right, hdv,
        hk, hks, hn0, ho1, ho2, pyOr_of_truthy _ hk, pyOr_of_truthy _ ho1, pyOr_of_truthy _ ho2]
  · intro dv
    have hk : truthy (some (JVal.jstr "AudioData")) = true := rfl
    have hks : isAudioDataKind (some (JVal.jstr "AudioData")) = true := rfl
    have hn0 : truthy (none : Option JVal) = false := rfl
    have h16 : truthy (some (JVal.jnum 16000)) = true := rfl
    have ho1 : truthy (some (JVal.jobj [("data", dv)])) = true := rfl
    have ho2 : truthy (some (JVal.jobj [("data", dv), ("sampleRate", JVal.jnum 16000)])) = true := rfl
    by_cases hdv : truthy (some dv) = true
    · simp [deserialize, jGet, pyOr_none_left, pyOr_of_truthy _ hdv, pyOr_none_right, hdv,
        hk, hks, hn0, h16, ho1, ho2, pyOr_of_truthy _ hk, pyOr_of_truthy _ h16,
        pyOr_of_truthy _ ho1, pyOr_of_truthy _ ho2]
    · simp at hdv
      simp [deserialize, jGet, pyOr_none_left, pyOr_of_not_truthy _ hdv, pyOr_none_right, hdv,
        hk, hks, hn0, h16, ho1, ho2, pyOr_of_truthy _ hk, pyOr_of_truthy _ h16,
        pyOr_of_truthy _ ho1, pyOr_of_truthy _ ho2]
  · intro dv srv hsrv
    have hk : truthy (some (JVal.jstr "AudioData")) = true := rfl
    have hks : isAudioDataKind (some (JVal.jstr "AudioData")) = true := rfl
    have hn0 : truthy (none : Option JVal) = false := rfl
    have h16 : truthy (some (JVal.jnum 16000)) = true := rfl
    have ho1 : truthy (some (JVal.jobj [("data", dv), ("sampleRate", srv)])) = true := rfl
    have ho2 : truthy (some (JVal.jobj [("data", dv), ("sampleRate", JVal.jnum 16000)])) = true := rfl
    by_cases hdv : truthy (some dv) = true
    · simp [deserialize, jGet, pyOr_none_left, pyOr_of_truthy _ hdv,
        pyOr_of_not_truthy _ hsrv, pyOr_none_right, hdv, hsrv, hk, hks, hn0, h16, ho1, ho2,
        pyOr_of_truthy _ hk, pyOr_of_truthy _ h16, pyOr_of_truthy _ ho1, pyOr_of_truthy _ ho2]
    · simp at hdv
      simp [deserialize, jGet, pyOr_none_left, pyOr_of_not_truthy _ hdv,
        pyOr_of_not_truthy _ hsrv, pyOr_none_right, hdv, hsrv, hk, hks, hn0, h16, ho1, ho2,
        pyOr_of_truthy _ hk, pyOr_of_truthy _ h16, pyOr_of_truthy _ ho1, pyOr_of_truthy _ ho2]

/-- Witness for claim C10: a present-but-falsy sampleRate of 0 behaves as
16000 on a concrete message. -/
theorem claim_C10_witness :
    deserialize (fun p _ _ => p) (init {})
      (some (.jobj [("kind", .jstr "AudioData"),
        ("audioData", .jobj [("data", .jstr "AAAA"), ("sampleRate", .jnum 0)])]))
      = deserialize (fun p _ _ => p) (init {})
        (some (.jobj [("kind", .jstr "AudioData"),
          ("audioData", .jobj [("data", .jstr "AAAA"), ("sampleRate", .jnum 16000)])])) :=
  (claim_C10 (fun p _ _ => p) (init {})).2.2.2.1 (.jstr "AAAA") (.jnum 0) rfl

end SerializerClaims

namespace TurnGate

theorem run_muted_drops (audios : List Frame) (hA : ∀ f ∈ audios, f.isCallerAudio = true)
    (d : Nat) (u : Bool) :
    run ⟨true, true, d, u⟩ audios = (⟨true, true, d + audios.length, u⟩, []) := by
  induction audios generalizing d with
  | nil => simp [run]
  | cons f rest ih =>
    have hf : f.isCallerAudio = true := hA f (by simp)
    have hstep : processFrame ⟨true, true, d, u⟩ f = (⟨true, true, d + 1, u⟩, []) := by
      cases f <;> simp_all [processFrame, Frame.isCallerAudio]
    rw [run, hstep]
    have := ih (fun g hg => hA g (by simp [hg])) (d + 1)
    simp [this]
    omega

theorem run_append (s : State) (xs ys : List Frame) :
    run s (xs ++ ys)
      = ((run (run s xs).1 ys).1, (run s xs).2 ++ (run (run s xs).1 ys).2) := by
  induction xs generalizing s with
  | nil => simp [run]
  | cons f rest ih =>
    simp only [List.cons_append, run]
    rw [List.append_eq, ih]
    simp

theorem processFrame_pass_audio (s : State) (f : Frame) (hen : s.enabled = true)
    (hmute : s.mute = false) (hf : f.isCallerAudio = true) :
    processFrame s f = (s, [f]) := by
  cases f <;> simp_all [processFrame, Frame.isCallerAudio]

/-- Claim C5: from any enabled, unmuted gate state, the sequence
caller-started, caller-stopped, N caller-audio frames, assistant-stopped
drops exactly the N audio frames (counting them) and forwards everything
else, ending unmuted so a following audio frame is forwarded again; and a
caller-stopped event with no caller-started since the last reset changes
nothing and the following audio frame is forwarded. -/
theorem claim_C5 (s : State) (hen : s.enabled = true) (hmute : s.mute = false)
    (audios : List Frame) (hA : ∀ f ∈ audios, f.isCallerAudio = true)
    (g : Frame) (hg : g.isCallerAudio = true) :
    run s ([.userStartedSpeaking, .userStoppedSpeaking] ++ audios ++ [.botStoppedSpeaking, g])
      = (⟨true, false, audios.length, false⟩,
         [.userStartedSpeaking, .userStoppedSpeaking, .botStoppedSpeaking, g]) ∧
    (∀ (s' : State) (f : Frame), s'.enabled = true → s'.sawUser = false → s'.mute = false →
      f.isCallerAudio = true →
      run s' [.userStoppedSpeaking, f] = (s', [.userStoppedSpeaking, f])) := by
  constructor
  · obtain ⟨en, mu, d, u⟩ := s
    simp only at hen hmute
    subst hen hmute
    have h1 : run ⟨true, false, d, u⟩ [Frame.userStartedSpeaking, Frame.userStoppedSpeaking]
        = (⟨true, true, 0, true⟩, [Frame.userStartedSpeaking, Frame.userStoppedSpeaking]) := by
      simp [run, processFrame, Frame.isCallerAudio]
    rw [run_append, run_append, h1, run_muted_drops audios hA]
    have h2 : run (⟨true, true, 0 + audios.length, true⟩ : State) [Frame.botStoppedSpeaking, g]
        = (⟨true, false, audios.length, false⟩, [Frame.botStoppedSpeaking, g]) := by
      have hb : processFrame ⟨true, true, 0 + audios.length, true⟩ Frame.botStoppedSpeaking
          = (⟨true, false, audios.length, false⟩, [Frame.botStoppedSpeaking]) := by
        simp [processFrame, Frame.isCallerAudio]
      rw [run, hb, run, processFrame_pass_audio _ g rfl rfl hg]
      simp [run]
    rw [h2]
    simp
  · intro s' f hen' hsaw' hmute' hf
    obtain ⟨en, mu, d, u⟩ := s'
    simp only at hen' hsaw' hmute'
    subst hen' hsaw' hmute'
    rw [run, show processFrame ⟨true, false, d, false⟩ Frame.userStoppedSpeaking
      = (⟨true, false, d, false⟩, [Frame.userStoppedSpeaking]) from by
        simp [processFrame, Frame.isCallerAudio]]
    rw [run, processFrame_pass_audio _ f rfl rfl hf]
    simp [run]

/-- Witness for claim C5: a concrete enabled gate run with two gated
caller-audio frames, and a lone caller-stopped event followed by a
forwarded audio frame. -/
theorem claim_C5_witness :
    run initState
        ([.userStartedSpeaking, .userStoppedSpeaking] ++
          [Frame.audioRaw .inputAudio [7] 16000 1, Frame.audioRaw .userAudio [8] 16000 1] ++
          [.botStoppedSpeaking, Frame.audioRaw .inputAudio [9] 16000 1])
      = (⟨true, false, 2, false⟩,
         [.userStartedSpeaking, .userStoppedSpeaking, .botStoppedSpeaking,
          Frame.audioRaw .inputAudio [9] 16000 1]) := by
  have h := (claim_C5 initState rfl rfl
      [Frame.audioRaw .inputAudio [7] 16000 1, Frame.audioRaw .userAudio [8] 16000 1]
      (by decide) (Frame.audioRaw .inputAudio [9] 16000 1) rfl).1
  simpa using h

/-- Claim C9: in every gate state a frame that is not caller raw audio is
forwarded; a frame is dropped exactly when the gate is enabled, muted and
the frame is caller raw audio; disable resets the state (gate off, mute
off, counter zero, armed flag cleared); and after disable every frame,
audio included, is forwarded with no state change. -/
theorem claim_C9 :
    (∀ (s : State) (f : Frame), f.isCallerAudio = false → (processFrame s f).2 = [f]) ∧
    (∀ (s : State) (f : Frame),
      (processFrame s f).2 = [] ↔ (s.enabled = true ∧ s.mute = true ∧ f.isCallerAudio = true)) ∧
    (∀ s : State, disable s = ⟨false, false, 0, false⟩) ∧
    (∀ (s : State) (f : Frame), processFrame (disable s) f = (disable s, [f])) := by
  refine ⟨?_, ?_, fun _ => rfl, ?_⟩
  · intro s f h
    obtain ⟨en, mu, d, u⟩ := s
    rcases f with _ | _ | _ | ⟨cls, a, sr, n⟩ | ⟨urg, m⟩ | _ | _ | _ | _ | _ | t | b | tag <;>
      cases en <;> cases mu <;> cases u <;>
      first
        | (cases cls <;> simp_all [processFrame, Frame.isCallerAudio])
        | simp_all [processFrame, Frame.isCallerAudio]
  · intro s f
    obtain ⟨en, mu, d, u⟩ := s
    rcases f with _ | _ | _ | ⟨cls, a, sr, n⟩ | ⟨urg, m⟩ | _ | _ | _ | _ | _ | t | b | tag <;>
      cases en <;> cases mu <;> cases u <;>
      first
        | (cases cls <;> simp_all [processFrame, Frame.isCallerAudio])
        | simp_all [processFrame, Frame.isCallerAudio]
  · intro s f
    simp [processFrame, disable]

/-- Witness for claim C9: a control frame passes through a muted gate. -/
theorem claim_C9_witness :
    (processFrame ⟨true, true, 0, true⟩ .botStoppedSpeaking).2 = [.botStoppedSpeaking] :=
  claim_C9.1 ⟨true, true, 0, true⟩ .botStoppedSpeaking rfl

end TurnGate

namespace Latency

theorem pickLatency_busy (r : Nat) (g : GlobalState) (s : Injector) :
    (pickLatency r g s).2.2.busy = s.busy := by
  cases h : s.latency_seconds <;> cases hst : s.strategy <;>
    simp [pickLatency, h, hst, nextLatencyRoundRobin]

/-- Claim C6: on a frame representing a new user turn (aggregated context
pushed downstream) the injector emits the STT-mute signal and sets busy
before the triggering frame continues downstream, sleeps for exactly the
picked delay, and emits no unmute at the end of the sleep; the unmute
signal is synthesized exactly when a TTS-speak frame is seen downstream
while busy, and busy is cleared exactly then. -/
theorem claim_C6 (rand : Nat) (g : GlobalState) (s : Injector) :
    (∀ f, isTurnStartFrame f = true →
      processFrame rand g s f .downstream =
        ((pickLatency rand g { s with busy := true }).2.1,
         (pickLatency rand g { s with busy := true }).2.2,
         [.push (.sttMute true) .upstream,
          .sleep (pickLatency rand g { s with busy := true }).1,
          .push f .downstream]) ∧
      ((processFrame rand g s f .downstream).2.1).busy = true ∧
      Event.push (.sttMute false) .upstream ∉ (processFrame rand g s f .downstream).2.2) ∧
    (∀ f d, (∀ b, f ≠ .sttMute b) →
      (Event.push (.sttMute false) .upstream ∈ (processFrame rand g s f d).2.2 ↔
        (s.busy = true ∧ d = .downstream ∧ isTTSSpeakFrame f = true))) ∧
    (∀ f d, ((processFrame rand g s f d).2.1).busy =
      if d = .downstream ∧ isTurnStartFrame f = true then true
      else if s.busy = true ∧ d = .downstream ∧ isTTSSpeakFrame f = true then false
      else s.busy) ∧
    (∀ f, s.busy = true → isTTSSpeakFrame f = true →
      processFrame rand g s f .downstream =
        (g, { s with busy := false },
         [.push (.sttMute false) .upstream, .push f .downstream])) := by
  refine ⟨?_, ?_, ?_, ?_⟩
  · intro f hf
    cases f <;> simp_all [processFrame, isTurnStartFrame, isTTSSpeakFrame, pickLatency_busy]
  · intro f d hf
    cases d <;> cases hb : s.busy <;>
      cases f <;> simp_all [processFrame, isTurnStartFrame, isTTSSpeakFrame, pickLatency_busy]
  · intro f d
    cases d <;> cases hb : s.busy <;>
      cases f <;> simp_all [processFrame, isTurnStartFrame, isTTSSpeakFrame, pickLatency_busy]
  · intro f hb hf
    cases f <;> simp_all [processFrame, isTurnStartFrame, isTTSSpeakFrame]

/-- Witness for claim C6: a concrete context frame triggers mute, sleep of
the picked delay, then the frame, with busy set. -/
theorem claim_C6_witness :
    processFrame 0 ⟨[3, 7], 0⟩ (initInjector none .roundRobin ⟨[3, 7], 0⟩)
        .llmContext .downstream
      = (⟨[3, 7], 1⟩, ⟨[3, 7], .roundRobin, some 3, true⟩,
         [.push (.sttMute true) .upstream, .sleep 3, .push .llmContext .downstream]) := by
  have h := (claim_C6 0 ⟨[3, 7], 0⟩ (initInjector none .roundRobin ⟨[3, 7], 0⟩)).1 .llmContext rfl
  rw [h.1]
  rfl

/-- Claim C7: the delay-picking step caches — a second call returns the
identical value and changes nothing — and under the round-robin strategy
successive fresh injector instances in one process draw the configured
candidates in rotating order, cycling after exhausting them. -/
theorem claim_C7 :
    (∀ (r1 r2 : Nat) (g : GlobalState) (s : Injector),
      pickLatency r2 (pickLatency r1 g s).2.1 (pickLatency r1 g s).2.2 = pickLatency r1 g s) ∧
    (∀ (g : GlobalState), g.choices ≠ [] → ∀ n,
      sessionDelays g n = (List.range n).map
        (fun i => g.choices.getD ((g.cursor + i) % g.choices.length) 0)) := by
  constructor
  · intro r1 r2 g s
    cases h : s.latency_seconds <;> cases hst : s.strategy <;>
      simp [pickLatency, h, hst, nextLatencyRoundRobin]
  · intro g hne n
    induction n generalizing g with
    | zero => simp [sessionDelays]
    | succ n ih =>
      rw [sessionDelays]
      simp only [pickLatency, initInjector, nextLatencyRoundRobin]
      rw [List.range_succ_eq_map]
      simp only [List.map_cons, List.map_map]
      congr 1
      rw [ih ⟨g.choices, g.cursor + 1⟩ hne]
      apply List.map_congr_left
      intro i _
      simp only [Function.comp_apply]
      have hidx : g.cursor + 1 + i = g.cursor + (i + 1) := by omega
      rw [hidx]

/-- Witness for claim C7: double pick is idempotent at a concrete state,
and candidates 3, 7, 0.1 are dealt to four successive sessions as
3, 7, 0.1, 3. -/
theorem claim_C7_witness :
    pickLatency 5
        (pickLatency 2 ⟨[3, 7, 1/10], 0⟩ (initInjector none .roundRobin ⟨[3, 7, 1/10], 0⟩)).2.1
        (pickLatency 2 ⟨[3, 7, 1/10], 0⟩ (initInjector none .roundRobin ⟨[3, 7, 1/10], 0⟩)).2.2
      = pickLatency 2 ⟨[3, 7, 1/10], 0⟩ (initInjector none .roundRobin ⟨[3, 7, 1/10], 0⟩) ∧
    sessionDelays ⟨[3, 7, 1/10], 0⟩ 4 = [3, 7, 1/10, 3] := by
  constructor
  · exact claim_C7.1 2 5 _ _
  · rw [claim_C7.2 ⟨[3, 7, 1/10], 0⟩ (by decide) 4]
    simp [List.range_succ]

end Latency

/-- Claim C8: the mute coordinator's query returns true exactly when the
assistant-is-speaking flag or the injector's busy flag is set, and it
returns false immediately after a TTS-speak frame passes the injector
downstream, provided the assistant-speaking flag is not set. -/
theorem claim_C8 :
    (∀ (b : Bool) (inj : Latency.Injector),
      should_mute_callback b inj = true ↔ (b = true ∨ inj.busy = true)) ∧
    (∀ (rand : Nat) (g : Latency.GlobalState) (s : Latency.Injector) (txt : String),
      should_mute_callback false ((Latency.processFrame rand g s (.ttsSpeak txt) .downstream).2.1)
        = false) := by
  constructor
  · intro b inj
    simp [should_mute_callback]
  · intro rand g s txt
    cases hb : s.busy <;>
      simp [should_mute_callback, Latency.processFrame, Latency.isTurnStartFrame,
        Latency.isTTSSpeakFrame, hb]

namespace CallNumbers

theorem get_number_spec (r : Nat) (pool : List String) (hne : pool ≠ []) :
    ∃ n, get_number r pool = .ok (n, pool.erase n) ∧ n ∈ pool := by
  have hlen : 0 < pool.length := List.length_pos.mpr hne
  have hi : r % pool.length < pool.length := Nat.mod_lt _ hlen
  refine ⟨pool.getD (r % pool.length) "", ?_, ?_⟩
  · simp [get_number, List.isEmpty_iff, hne]
  · rw [List.getD_eq_getElem?_getD, List.getElem?_eq_getElem hi]
    exact List.getElem_mem hi

theorem issueAll_spec (rands : List Nat) (pool : List String) (hnd : pool.Nodup)
    (hk : rands.length ≤ pool.length) :
    ∃ issued pool', issueAll rands pool = .ok (issued, pool') ∧
      issued.length = rands.length ∧ issued.Nodup ∧ (∀ x ∈ issued, x ∈ pool) ∧
      pool'.length = pool.length - rands.length ∧ (issued ++ pool').Perm pool := by
  induction rands generalizing pool with
  | nil => exact ⟨[], pool, rfl, rfl, List.nodup_nil, by simp, by simp, by simp⟩
  | cons r rs ih =>
    have hne : pool ≠ [] := by
      intro h
      subst h
      simp at hk
    obtain ⟨n, hget, hmem⟩ := get_number_spec r pool hne
    have hlen : (pool.erase n).length = pool.length - 1 :=
      List.length_erase_of_mem hmem
    have hnd' : (pool.erase n).Nodup := hnd.erase n
    have hk' : rs.length ≤ (pool.erase n).length := by
      simp at hk
      omega
    obtain ⟨ns, pool'', hall, hlen', hnd'', hsub, hplen, hperm⟩ := ih (pool.erase n) hnd' hk'
    refine ⟨n :: ns, pool'', ?_, ?_, ?_, ?_, ?_, ?_⟩
    · simp [issueAll, hget, hall]
    · simp [hlen']
    · refine List.nodup_cons.mpr ⟨?_, hnd''⟩
      intro hmem'
      have : n ∈ pool.erase n := hsub n hmem'
      exact ((hnd.mem_erase_iff).mp this).1 rfl
    · intro x hx
      rcases List.mem_cons.mp hx with h | h
      · exact h ▸ hmem
      · exact List.erase_subset _ _ (hsub x h)
    · rw [hplen, hlen]
      simp only [List.length_cons]
      omega
    · have h2 : (n :: (ns ++ pool'')).Perm (n :: pool.erase n) := hperm.cons n
      have h3 : (n :: pool.erase n).Perm pool := (List.perm_cons_erase hmem).symm
      exact h2.trans h3

set_option maxRecDepth 100000 in
/-- Claim C4: issuing from an empty pool raises the pool-exhausted error;
every entry of the configured (501-800) pool is a width-3 numeric string;
every pool entry lies in the configured inclusive range; and any sequence
of k ≤ pool-size issue operations succeeds, yields k pairwise-distinct ids
drawn from the pool, leaves exactly pool-size − k entries, and keeps the
remaining pool together with the issued ids a permutation of the original
pool. -/
theorem claim_C4 :
    (∀ r, get_number r [] = .error poolExhaustedMsg) ∧
    (initialPool 501 800).all (fun x => x.length == 3) = true ∧
    (∀ start stop, start ≤ stop → ∀ x ∈ initialPool start stop,
      ∃ i, start ≤ i ∧ i ≤ stop ∧ x = fmt03 i) ∧
    (∀ rands pool, pool.Nodup → rands.length ≤ pool.length →
      ∃ issued pool', issueAll rands pool = .ok (issued, pool') ∧
        issued.length = rands.length ∧ issued.Nodup ∧ (∀ x ∈ issued, x ∈ pool) ∧
        pool'.length = pool.length - rands.length ∧ (issued ++ pool').Perm pool) := by
  refine ⟨fun r => rfl, by decide, ?_, issueAll_spec⟩
  intro start stop hle x hx
  obtain ⟨i, hi, rfl⟩ := List.mem_map.mp hx
  have hir := List.mem_range'.mp hi
  exact ⟨i, by omega, by omega, rfl⟩

/-- Witness for claim C4: a three-issue run against the concrete pool for
the range 501-505. -/
theorem claim_C4_witness :
    ∃ issued pool', issueAll [7, 3, 2] (initialPool 501 505) = .ok (issued, pool') ∧
      issued.length = 3 ∧ issued.Nodup ∧ (∀ x ∈ issued, x ∈ initialPool 501 505) ∧
      pool'.length = (initialPool 501 505).length - 3 ∧
      (issued ++ pool').Perm (initialPool 501 505) := by
  have h := claim_C4.2.2.2 [7, 3, 2] (initialPool 501 505) (by decide) (by decide)
  simpa using h

end CallNumbers

end VoiceAI
